import Mathlib

/-!
Verification of the TNB (Malaysian utility) billing engine against its
specification. The development shallowly embeds the repository's
`custom_components/tnb_rates/calculations.py` and the `TNBEnergyTracker`
class of `custom_components/tnb_rates/coordinator.py`.

Two embedding layers are used:

* an exact-arithmetic layer over `ℚ` for the pure calculation functions and
  the tracker state machine (Python `float`/`Decimal` values are idealised as
  exact rationals; every claim settled on this layer either is structural or
  has a numeric tolerance that dwarfs binary-float / 28-digit-Decimal error);

* a type-tagged layer (`PyNum`, carrying the Python runtime tag `int`,
  `float` or `Decimal` next to the idealised value) for
  `TNBEnergyTracker.calculate_components` and its callees, because that code
  path mixes `Decimal` energy counters with `float` tier rates and passes the
  `eei` configuration dict where the numeric `eei_rate` parameter is
  expected: in Python each of these raises `TypeError`.  Arithmetic on
  tagged values returns `Option` (`none` models the raised exception), with
  the coercion table of CPython: `int` coerces to either side, `float` and
  `Decimal` never mix, a dict never mixes with a number, division by zero
  raises.
-/

/- Batteries seals the arithmetic on `Rat` as irreducible; reopen it so that
concrete billing computations evaluate under `decide`. -/
unseal Rat.ofScientific Rat.inv Rat.mul Rat.add Rat.sub

namespace TNB

/-! ## Python dates and times

`datetime.datetime` down to microseconds; comparison is lexicographic on the
fields, as in CPython. -/

/-- A Python `datetime.time`: hour, minute, second, microsecond. -/
structure PTime where
  hour : ℕ
  minute : ℕ
  second : ℕ
  micro : ℕ
deriving Repr, DecidableEq

/-- Microseconds since midnight; Python compares times by this key. -/
def PTime.toN (t : PTime) : ℕ :=
  (((t.hour * 60 + t.minute) * 60 + t.second)) * 1000000 + t.micro

/-- A Python `datetime.datetime` (naive, microsecond precision). -/
structure PDateTime where
  year : ℕ
  month : ℕ
  day : ℕ
  hour : ℕ := 0
  minute : ℕ := 0
  second : ℕ := 0
  micro : ℕ := 0
deriving Repr, DecidableEq

/-- Python `datetime` comparison: lexicographic on the seven fields. -/
def PDateTime.ltb (a b : PDateTime) : Bool :=
  if a.year ≠ b.year then a.year < b.year
  else if a.month ≠ b.month then a.month < b.month
  else if a.day ≠ b.day then a.day < b.day
  else if a.hour ≠ b.hour then a.hour < b.hour
  else if a.minute ≠ b.minute then a.minute < b.minute
  else if a.second ≠ b.second then a.second < b.second
  else a.micro < b.micro

/-- `a <= b` on Python datetimes. -/
def PDateTime.leb (a b : PDateTime) : Bool := !(PDateTime.ltb b a)

/-- `t.time()`: the time-of-day part. -/
def PDateTime.timeOfDay (t : PDateTime) : PTime :=
  ⟨t.hour, t.minute, t.second, t.micro⟩

/-- Gregorian leap year, as `calendar.isleap` / `datetime` use it. -/
def isLeap (y : ℕ) : Bool := (y % 4 == 0 && y % 100 != 0) || y % 400 == 0

/-- Days in the months before month `m` of a year (`m` is 1-based). -/
def daysBeforeMonth (m : ℕ) (leap : Bool) : ℕ :=
  let base :=
    match m with
    | 1 => 0 | 2 => 31 | 3 => 59 | 4 => 90 | 5 => 120 | 6 => 151
    | 7 => 181 | 8 => 212 | 9 => 243 | 10 => 273 | 11 => 304 | _ => 334
  if leap && m ≥ 3 then base + 1 else base

/-- `datetime.date(y, m, d).toordinal()`: proleptic-Gregorian day number with
day 1 = 0001-01-01. -/
def toOrdinal (y m d : ℕ) : ℕ :=
  365 * (y - 1) + (y - 1) / 4 - (y - 1) / 100 + (y - 1) / 400
    + daysBeforeMonth m (isLeap y) + d

/-- Python `datetime.weekday()`: Monday = 0 … Sunday = 6.  0001-01-01 is a
Monday in the proleptic Gregorian calendar, as in CPython. -/
def PDateTime.weekday (t : PDateTime) : ℕ :=
  (toOrdinal t.year t.month t.day + 6) % 7

/-- Zero-pad a number to two digits (for `strftime` fields). -/
def pad2 (n : ℕ) : String := if n < 10 then "0" ++ toString n else toString n

/-- Zero-pad a number to four digits (for `strftime` `%Y`). -/
def pad4 (n : ℕ) : String :=
  if n < 10 then "000" ++ toString n
  else if n < 100 then "00" ++ toString n
  else if n < 1000 then "0" ++ toString n
  else toString n

/-- `t.strftime("%Y-%m-%d")`, the key used for holiday lookup. -/
def PDateTime.dateKey (t : PDateTime) : String :=
  pad4 t.year ++ "-" ++ pad2 t.month ++ "-" ++ pad2 t.day

/-- The numeric value of an ASCII digit, `none` for any other character
(`strptime` matches ASCII digits in its `%H` and `%M` fields). -/
def digitVal (c : Char) : Option ℕ :=
  if '0' ≤ c && c ≤ '9' then some (c.toNat - 48) else none

/-- Read one or two leading digits greedily, as `strptime`'s `%H`/`%M`
patterns accept 1–2 digit fields. -/
def takeDigits2 : List Char → Option (ℕ × List Char)
  | [] => none
  | c1 :: rest1 =>
    match digitVal c1 with
    | none => none
    | some d1 =>
      match rest1 with
      | [] => some (d1, [])
      | c2 :: rest2 =>
        match digitVal c2 with
        | none => some (d1, rest1)
        | some d2 => some (d1 * 10 + d2, rest2)

/-- `datetime.strptime(s, "%H:%M").time()`: one or two digits of hour
(0–23), a colon, one or two digits of minute (0–59), end of string;
anything else raises `ValueError`, modelled as `none`.  Equivalent, on the
accept/reject level, to CPython's backtracking regular expression
`(2[0-3]|[0-1]\d|\d):([0-5]\d|\d)`. -/
def parseHHMM (s : String) : Option PTime :=
  match takeDigits2 s.toList with
  | none => none
  | some (h, rest) =>
    if h > 23 then none
    else
      match rest with
      | ':' :: rest2 =>
        match takeDigits2 rest2 with
        | none => none
        | some (m, rest3) =>
          if m > 59 then none
          else if rest3.isEmpty then some ⟨h, m, 0, 0⟩ else none
      | _ => none

/-! ## Rate-table configuration (exact-rational layer)

Each structure mirrors one of the JSON dicts the source reads with
`dict.get`; an `Option` field models a possibly-missing key, and the
`.get` default is applied at each use site exactly as the source does. -/

/-- One tariff tier dict: `limit` is always read with `tier["limit"]`, the
three rates with `tier.get(..., 0)`. -/
structure Tier where
  limit : ℚ
  peak_rate : Option ℚ := none
  offpeak_rate : Option ℚ := none
  rate : Option ℚ := none
deriving Repr, DecidableEq

/-- The `tariff_a["tou"]` dict. -/
structure TouConfig where
  peak_start : Option String := none
  peak_end : Option String := none
  weekend_is_offpeak : Option Bool := none
  public_holidays : Option (List String) := none
  tiers : List Tier := []
deriving Repr, DecidableEq

/-- The `tariff_a["charges"]` dict. -/
structure Charges where
  capacity : Option ℚ := none
  network : Option ℚ := none
  retail : Option ℚ := none
  retail_waiver_limit : Option ℚ := none
deriving Repr, DecidableEq

/-- The `tariff_a` dict (ToU sub-config, standard tiers, charges). -/
structure Tariff where
  tou : Option TouConfig := none
  tiers : List Tier := []
  charges : Option Charges := none
deriving Repr, DecidableEq

/-- The `afa` dict: waiver limit, per-month rate table, fallback rate. -/
structure AfaConfig where
  waiver_limit : Option ℚ := none
  rates : List (String × ℚ) := []
  rate : Option ℚ := none
deriving Repr, DecidableEq

/-- The `eei` dict. -/
structure EeiConfig where
  limit : Option ℚ := none
  tiers : List Tier := []
  rate : Option ℚ := none
deriving Repr, DecidableEq

/-- The `tax["kwtbb"]` dict. -/
structure KwtbbConfig where
  threshold : Option ℚ := none
  rate : Option ℚ := none
deriving Repr, DecidableEq

/-- The `tax["service_tax"]` dict. -/
structure ServiceTaxConfig where
  exemption_limit : Option ℚ := none
  rate : Option ℚ := none
deriving Repr, DecidableEq

/-- `tariff_type`: the source compares the configured string against
`TARIFF_TOU = "Time of Use"`; any other string takes the standard branch. -/
inductive TariffType where
  | standard
  | tou
deriving Repr, DecidableEq

/-! ## `calculations.py` (exact-rational layer) -/

/-- The `for tier in tiers` loop body of `select_tier`: first tier whose
`limit` bounds the usage. -/
def scanTiers (total_kwh : ℚ) : List Tier → Option Tier
  | [] => none
  | t :: rest => if total_kwh ≤ t.limit then some t else scanTiers total_kwh rest

/-- `select_tier(total_kwh, tiers)`: `None` on an empty list, else the first
tier with `total_kwh <= tier["limit"]`, else `tiers[-1]`. -/
def select_tier (total_kwh : ℚ) (tiers : List Tier) : Option Tier :=
  if tiers.isEmpty then none
  else
    match scanTiers total_kwh tiers with
    | some t => some t
    | none => tiers.getLast?

/-- `is_peak_time(current_time, tou_config)`: weekends (when configured) and
listed public holidays are off-peak, otherwise peak exactly on
`peak_start <= current_time.time() < peak_end`; any `strptime` failure is
caught and yields off-peak. -/
def is_peak_time (t : PDateTime) (cfg : TouConfig) : Bool :=
  match parseHHMM (cfg.peak_start.getD "14:00"),
        parseHHMM (cfg.peak_end.getD "22:00") with
  | some ps, some pe =>
    let weekend_offpeak := cfg.weekend_is_offpeak.getD true
    let is_weekend := t.weekday ≥ 5
    if weekend_offpeak && is_weekend then false
    else if t.dateKey ∈ cfg.public_holidays.getD [] then false
    else if ps.toN ≤ t.timeOfDay.toN ∧ t.timeOfDay.toN < pe.toN then true
    else false
  | _, _ => false

/-- `calculate_energy_cost`: returns
`(energy_cost, peak_rate, offpeak_rate, rate)`. -/
def calculate_energy_cost (peak_kwh offpeak_kwh total_kwh : ℚ)
    (tariff : Tariff) (tariff_type : TariffType) : ℚ × ℚ × ℚ × ℚ :=
  match tariff_type with
  | .tou =>
    let tou_config := tariff.tou.getD {}
    if tou_config.tiers.isEmpty then (0, 0, 0, 0)
    else
      match select_tier total_kwh tou_config.tiers with
      | none => (0, 0, 0, 0)
      | some selected =>
        let pr := selected.peak_rate.getD 0
        let opr := selected.offpeak_rate.getD 0
        (peak_kwh * (pr / 100) + offpeak_kwh * (opr / 100), pr, opr, 0)
  | .standard =>
    if tariff.tiers.isEmpty then (0, 0, 0, 0)
    else
      match select_tier total_kwh tariff.tiers with
      | none => (0, 0, 0, 0)
      | some selected =>
        let r := selected.rate.getD 0
        (total_kwh * (r / 100), 0, 0, r)

/-- `calculate_variable_charges(total_kwh, capacity_rate, network_rate)`. -/
def calculate_variable_charges (total_kwh capacity_rate network_rate : ℚ) : ℚ :=
  total_kwh * ((capacity_rate + network_rate) / 100)

/-- `calculate_retail_charge(total_kwh, retail_config)`: flat fee above the
waiver threshold, zero otherwise. -/
def calculate_retail_charge (total_kwh : ℚ) (c : Charges) : ℚ :=
  let waiver_limit := c.retail_waiver_limit.getD 600
  let retail_charge := c.retail.getD 10
  if total_kwh > waiver_limit then retail_charge else 0

/-- `calculate_afa_charge(total_kwh, afa_config, current_month_key)`. -/
def calculate_afa_charge (total_kwh : ℚ) (afa : AfaConfig)
    (current_month_key : String) : ℚ :=
  let waiver_limit := afa.waiver_limit.getD 600
  if total_kwh ≤ waiver_limit then 0
  else
    let afa_rate :=
      match afa.rates.lookup current_month_key with
      | some r => r
      | none => afa.rate.getD 0
    total_kwh * (afa_rate / 100)

/-- `calculate_eei_rebate(total_kwh, eei_config)`. -/
def calculate_eei_rebate (total_kwh : ℚ) (eei : EeiConfig) : ℚ :=
  let lim := eei.limit.getD 1000
  if total_kwh > lim then 0
  else
    let fb := total_kwh * (eei.rate.getD 0 / 100)
    if eei.tiers.isEmpty then fb
    else
      match select_tier total_kwh eei.tiers with
      | some selected => total_kwh * (selected.rate.getD 0 / 100)
      | none => fb

/-- `calculate_kwtbb_tax(total_kwh, base_bill, kwtbb_config)`. -/
def calculate_kwtbb_tax (total_kwh base_bill : ℚ) (cfg : KwtbbConfig) : ℚ :=
  let threshold := cfg.threshold.getD 300
  let r := cfg.rate.getD (16/10)
  if total_kwh > threshold then base_bill * (r / 100) else 0

/-- `calculate_service_tax(total_kwh, base_bill, service_tax_config)`. -/
def calculate_service_tax (total_kwh base_bill : ℚ)
    (cfg : ServiceTaxConfig) : ℚ :=
  let exemption_limit := cfg.exemption_limit.getD 600
  let r := cfg.rate.getD 8
  if total_kwh ≤ exemption_limit ∨ total_kwh = 0 then 0
  else
    let taxable_share := (total_kwh - exemption_limit) / total_kwh
    let taxable_amount := base_bill * taxable_share
    taxable_amount * (r / 100)

/-- `calculate_export_credit(...)`: peak-first offset, returns
`(credit_value, matched_peak, matched_offpeak, excess_export)`; in Standard
mode the matched total is returned in the `matched_peak` slot. -/
def calculate_export_credit
    (peak_kwh offpeak_kwh total_kwh export_kwh peak_rate offpeak_rate
      variable_rate : ℚ) (tariff_type : TariffType) (rate eei_rate : ℚ) :
    ℚ × ℚ × ℚ × ℚ :=
  match tariff_type with
  | .tou =>
    let matched_peak := if peak_kwh > 0 then min export_kwh peak_kwh else 0
    let rem1 := export_kwh - matched_peak
    let matched_offpeak := if offpeak_kwh > 0 then min rem1 offpeak_kwh else 0
    let excess_export := rem1 - matched_offpeak
    let credit_value :=
      matched_peak * ((peak_rate + variable_rate + eei_rate) / 100)
        + matched_offpeak * ((offpeak_rate + variable_rate + eei_rate) / 100)
    (credit_value, matched_peak, matched_offpeak, excess_export)
  | .standard =>
    let matched_total := if total_kwh > 0 then min export_kwh total_kwh else 0
    let excess_export := export_kwh - matched_total
    let credit_value :=
      matched_total * ((rate + variable_rate + eei_rate) / 100)
    (credit_value, matched_total, 0, excess_export)

/-! ## The `TNBEnergyTracker` state machine (exact-rational layer)

The mutable state of `TNBEnergyTracker` and its mutating methods, as explicit
state transformers.  Sensor samples reach the tracker as Home Assistant state
objects; the tracker reads only the value string, so a sample is modelled by
what `float(state.state)` yields. -/

/-- One raw sensor reading as the tracker sees it: `absent` for a missing
state or the sentinels `"unavailable"`/`"unknown"`, `invalid` for a value
string `float()` rejects (the `ValueError` path), `value q` otherwise. -/
inductive SensorReading where
  | absent
  | invalid
  | value (q : ℚ)
deriving Repr, DecidableEq

/-- `SENSOR_RESET_THRESHOLD` from `const.py`. -/
def SENSOR_RESET_THRESHOLD : ℚ := 10

/-- The fields of `TNBEnergyTracker`: configuration, energy counters, NEM
balance, last billing reset, restoration bookkeeping and the last raw
readings. -/
structure TrackerState where
  billing_day : ℕ
  tariff_type : TariffType
  peak_kwh : ℚ := 0
  offpeak_kwh : ℚ := 0
  total_kwh : ℚ := 0
  export_kwh : ℚ := 0
  nem_balance : ℚ := 0
  last_reset : Option PDateTime := none
  expected_sensors : ℕ := 0
  restored_sensors : ℕ := 0
  fully_restored : Bool := false
  restoredFlag : Bool := false
  last_import_state : Option ℚ := none
  last_export_state : Option ℚ := none
deriving Repr, DecidableEq

/-- `is_restored()`. -/
def isRestored (s : TrackerState) : Bool := s.fully_restored || s.restoredFlag

/-- `_calculate_period_start(current_time)`: the most recent occurrence of
`billing_day` at midnight, stepping back one month (with year rollback at
January) when today's day-of-month is before the billing day. -/
def periodStart (billing_day : ℕ) (t : PDateTime) : PDateTime :=
  let ps : PDateTime :=
    { t with day := billing_day, hour := 0, minute := 0, second := 0, micro := 0 }
  if t.day < billing_day then
    if t.month = 1 then { ps with year := t.year - 1, month := 12 }
    else { ps with month := t.month - 1 }
  else ps

/-- `current_time.replace(month=1, day=1, hour=0, minute=0, second=0,
microsecond=0)`: January 1st of the current year. -/
def yearResetDate (t : PDateTime) : PDateTime :=
  { t with month := 1, day := 1, hour := 0, minute := 0, second := 0, micro := 0 }

/-- The import accumulated this period as `_check_reset` measures it:
`peak + offpeak` for ToU, `total` for Standard. -/
def currentImport (s : TrackerState) : ℚ :=
  if s.tariff_type = .tou then s.peak_kwh + s.offpeak_kwh else s.total_kwh

/-- Whether `_check_reset` will fire a billing-cycle rollover at `now`. -/
def rolloverDue (s : TrackerState) (now : PDateTime) : Bool :=
  match s.last_reset with
  | none => false
  | some lr => PDateTime.ltb lr (periodStart s.billing_day now)

/-- `_check_reset(current_time)`: initialise `last_reset` on first call;
on a rollover carry `max(0, export - import)` into the NEM balance — or
forfeit the balance entirely when the rollover crosses January 1st — and
zero the four period counters. -/
def checkReset (s : TrackerState) (now : PDateTime) : TrackerState :=
  match s.last_reset with
  | none => { s with last_reset := some now }
  | some lr =>
    if PDateTime.ltb lr (periodStart s.billing_day now) then
      let current_excess := max 0 (s.export_kwh - currentImport s)
      let yr := yearResetDate now
      let s1 :=
        if PDateTime.ltb lr yr && PDateTime.leb yr now then
          { s with nem_balance := 0 }
        else
          { s with nem_balance := s.nem_balance + current_excess }
      { s1 with peak_kwh := 0, offpeak_kwh := 0, total_kwh := 0,
                export_kwh := 0, last_reset := some now }
    else s

/-- `reconcile_tou_total()`: in ToU mode force `total = peak + offpeak`. -/
def reconcileTouTotal (s : TrackerState) : TrackerState :=
  if s.tariff_type = .tou then
    { s with total_kwh := s.peak_kwh + s.offpeak_kwh }
  else s

/-- `register_sensor_restored()`: increment the count; once it reaches the
expected number, reconcile the ToU total, set the restored flags, run the
deferred rollover check against the restored `last_reset`, and return
`True`. -/
def registerSensorRestored (s : TrackerState) (now : PDateTime) :
    Bool × TrackerState :=
  let s1 := { s with restored_sensors := s.restored_sensors + 1 }
  if s1.restored_sensors ≥ s1.expected_sensors then
    let s2 := reconcileTouTotal s1
    let s3 := { s2 with fully_restored := true, restoredFlag := true }
    let s4 :=
      match s3.last_reset with
      | none => s3
      | some lr =>
        if PDateTime.ltb lr (periodStart s3.billing_day now) then
          checkReset s3 now
        else s3
    (true, s4)
  else (false, s1)

/-- The classify-and-accumulate tail of `_process_import_delta`: Standard
adds to `total`; ToU classifies `now`, adds to `peak` or `offpeak` and then
recomputes `total = peak + offpeak`. -/
def accumulateDelta (s : TrackerState) (delta : ℚ) (tou : TouConfig)
    (now : PDateTime) : TrackerState :=
  match s.tariff_type with
  | .standard => { s with total_kwh := s.total_kwh + delta }
  | .tou =>
    let s2 :=
      if is_peak_time now tou then
        { s with peak_kwh := s.peak_kwh + delta }
      else
        { s with offpeak_kwh := s.offpeak_kwh + delta }
    { s2 with total_kwh := s2.peak_kwh + s2.offpeak_kwh }

/-- `_process_import_delta(delta, coordinator_data, current_time)`; `tou` is
the value of `coordinator_data.get("tariff_a", {}).get("tou", {})`. -/
def processImportDelta (s : TrackerState) (delta : ℚ) (tou : TouConfig)
    (now : PDateTime) : TrackerState :=
  let s1 := if isRestored s then checkReset s now else s
  if delta ≤ 0 then s1
  else accumulateDelta s1 delta tou now

/-- The reset/noise-detection rule shared by both ingestion paths: a drop to
below the threshold is a counter reset (`delta = new`), any other drop is
discarded (`delta = 0`), otherwise `delta = new - old`. -/
def ingestDelta (new_val old_val : ℚ) : ℚ :=
  if new_val < old_val then
    if new_val < SENSOR_RESET_THRESHOLD then new_val else 0
  else new_val - old_val

/-- `handle_import_change(new_state, old_state, coordinator_data)`:
returns the `bool` result together with the next state. -/
def handleImportChange (s : TrackerState) (new_state old_state : SensorReading)
    (tou : TouConfig) (now : PDateTime) : Bool × TrackerState :=
  match new_state with
  | .absent => (false, s)
  | .invalid => (false, s)
  | .value new_val =>
    match old_state with
    | .absent => (false, { s with last_import_state := some new_val })
    | .invalid => (false, s)
    | .value old_val =>
      let delta := ingestDelta new_val old_val
      let s1 := if delta > 0 then processImportDelta s delta tou now else s
      (true, { s1 with last_import_state := some new_val })

/-- `handle_export_change(new_state, old_state)`. -/
def handleExportChange (s : TrackerState) (new_state old_state : SensorReading)
    (now : PDateTime) : Bool × TrackerState :=
  match new_state with
  | .absent => (false, s)
  | .invalid => (false, s)
  | .value new_val =>
    match old_state with
    | .absent => (false, { s with last_export_state := some new_val })
    | .invalid => (false, s)
    | .value old_val =>
      let delta := ingestDelta new_val old_val
      let s1 :=
        if delta > 0 then
          let s0 := if isRestored s then checkReset s now else s
          { s0 with export_kwh := s0.export_kwh + delta }
        else s
      (true, { s1 with last_export_state := some new_val })

/-! ## Type-tagged layer: Python numbers with runtime tags

`calculate_components` keeps the energy counters as `Decimal` while the rate
table carries `float`s (JSON numbers) and the tier/charge code builds plain
`float` intermediates; CPython raises `TypeError` on any arithmetic mixing
`float` with `Decimal`, and on any arithmetic between a number and a `dict`.
This layer tracks the runtime tag next to the idealised rational value so
those exceptions are part of the model (`none` = the call raises). -/

/-- The Python runtime type of a numeric value: `int`, `float` or
`decimal.Decimal`. -/
inductive PyTag where
  | tint
  | tfloat
  | tdec
deriving Repr, DecidableEq

/-- CPython's coercion table for binary arithmetic: `int` coerces to either
side, `float`/`Decimal` never mix (`TypeError`). -/
def PyTag.join : PyTag → PyTag → Option PyTag
  | .tint, t => some t
  | t, .tint => some t
  | .tfloat, .tfloat => some .tfloat
  | .tdec, .tdec => some .tdec
  | _, _ => none

/-- A Python number: its runtime tag and its value, idealised as an exact
rational (binary-float rounding and the 28-digit Decimal context are
abstracted away; no claim settled on this layer depends on them). -/
structure PyNum where
  tag : PyTag
  val : ℚ
deriving Repr, DecidableEq

/-- An `int` literal. -/
def pyI (q : ℚ) : PyNum := ⟨.tint, q⟩

/-- A `float` literal (JSON numbers with a fractional part, and the `0.0`
defaults in the source). -/
def pyF (q : ℚ) : PyNum := ⟨.tfloat, q⟩

/-- A `Decimal` value. -/
def pyD (q : ℚ) : PyNum := ⟨.tdec, q⟩

/-- `Decimal(str(x))`, the conversion `calculate_components` applies to the
capacity and network charge rates. -/
def pyToDec (x : PyNum) : PyNum := ⟨.tdec, x.val⟩

/-- `a + b`; `none` models the raised `TypeError`. -/
def padd (a b : PyNum) : Option PyNum :=
  (a.tag.join b.tag).map fun t => ⟨t, a.val + b.val⟩

/-- `a - b`. -/
def psub (a b : PyNum) : Option PyNum :=
  (a.tag.join b.tag).map fun t => ⟨t, a.val - b.val⟩

/-- `a * b`. -/
def pmul (a b : PyNum) : Option PyNum :=
  (a.tag.join b.tag).map fun t => ⟨t, a.val * b.val⟩

/-- `a / b`: true division (`int / int` is a `float`), `ZeroDivisionError`
on a zero divisor. -/
def pdiv (a b : PyNum) : Option PyNum :=
  if b.val = 0 then none
  else
    (a.tag.join b.tag).map fun t =>
      ⟨if t = .tint then .tfloat else t, a.val / b.val⟩

/-- Two-argument `min`: comparisons between `int`, `float` and `Decimal` are
all allowed and by value; `min(x, y)` returns `x` unless `y < x`. -/
def pmin (x y : PyNum) : PyNum := if y.val < x.val then y else x

/-- Two-argument `max`: `max(x, y)` returns `x` unless `y > x`. -/
def pmax (x y : PyNum) : PyNum := if y.val > x.val then y else x

/-! ### Tagged rate-table structures

The same dicts as the `ℚ` layer, with tagged values (JSON integers parse as
Python `int`, JSON numbers with a decimal point as `float`). -/

/-- A tier dict with tagged values. -/
structure PyTier where
  limit : PyNum
  peak_rate : Option PyNum := none
  offpeak_rate : Option PyNum := none
  rate : Option PyNum := none
deriving Repr, DecidableEq

/-- `tariff_a["tou"]` (only its tiers are read on this code path). -/
structure PyTou where
  tiers : List PyTier := []
deriving Repr, DecidableEq

/-- `tariff_a["charges"]` with tagged values. -/
structure PyCharges where
  capacity : Option PyNum := none
  network : Option PyNum := none
  retail : Option PyNum := none
  retail_waiver_limit : Option PyNum := none
deriving Repr, DecidableEq

/-- `tariff_a` with tagged values. -/
structure PyTariff where
  tou : Option PyTou := none
  tiers : List PyTier := []
  charges : Option PyCharges := none
deriving Repr, DecidableEq

/-- `afa` with tagged values. -/
structure PyAfa where
  waiver_limit : Option PyNum := none
  rates : List (String × PyNum) := []
  rate : Option PyNum := none
deriving Repr, DecidableEq

/-- `eei` with tagged values. -/
structure PyEeiConfig where
  limit : Option PyNum := none
  tiers : List PyTier := []
  rate : Option PyNum := none
deriving Repr, DecidableEq

/-- `tax["kwtbb"]` with tagged values. -/
structure PyKwtbb where
  threshold : Option PyNum := none
  rate : Option PyNum := none
deriving Repr, DecidableEq

/-- `tax["service_tax"]` with tagged values. -/
structure PyServiceTax where
  exemption_limit : Option PyNum := none
  rate : Option PyNum := none
deriving Repr, DecidableEq

/-- The `tax` dict. -/
structure PyTax where
  kwtbb : Option PyKwtbb := none
  service_tax : Option PyServiceTax := none
deriving Repr, DecidableEq

/-- A rate-table snapshot (`coordinator_data`); a missing section models a
missing or empty dict, which the source treats alike via falsiness or
`dict.get` defaults. -/
structure PySnapshot where
  tariff_a : Option PyTariff := none
  afa : Option PyAfa := none
  eei : Option PyEeiConfig := none
  tax : Option PyTax := none
deriving Repr, DecidableEq

/-- An argument in `calculate_export_credit`'s `eei_rate` parameter slot:
the caller in `coordinator.py` passes the whole `eei` configuration dict
there, so the slot holds either a number or that dict. -/
inductive PyArg where
  | num (x : PyNum)
  | eeiDict (e : PyEeiConfig)
deriving Repr, DecidableEq

/-- `a + b` when `b` may be the `eei` dict: `number + dict` raises
`TypeError`. -/
def paddArg (a : PyNum) : PyArg → Option PyNum
  | .num x => padd a x
  | .eeiDict _ => none

/-! ### `calculations.py` over tagged numbers

The same functions as the `ℚ` layer, re-traced with the runtime tags the
actual call from `calculate_components` produces; every arithmetic step
threads through `Option` in the source's evaluation order, so the first
`TypeError` aborts the whole call exactly as the exception does. -/

/-- The `for` loop of `select_tier` (comparisons never raise). -/
def pyScanTiers (total_kwh : PyNum) : List PyTier → Option PyTier
  | [] => none
  | t :: rest =>
    if total_kwh.val ≤ t.limit.val then some t else pyScanTiers total_kwh rest

/-- `select_tier` over tagged numbers. -/
def pySelectTier (total_kwh : PyNum) (tiers : List PyTier) : Option PyTier :=
  if tiers.isEmpty then none
  else
    match pyScanTiers total_kwh tiers with
    | some t => some t
    | none => tiers.getLast?

/-- `calculate_energy_cost` over tagged numbers; the zero early-returns are
`float` zeros, the tier rates keep their JSON tags, and
`peak_kwh * (peak_rate / 100)` on a `Decimal` counter and a `float` rate is
where the `TypeError` of the worked example is raised. -/
def pyCalculateEnergyCost (peak_kwh offpeak_kwh total_kwh : PyNum)
    (tariff : PyTariff) (tariff_type : TariffType) :
    Option (PyNum × PyNum × PyNum × PyNum) :=
  match tariff_type with
  | .tou =>
    let tou_config := tariff.tou.getD {}
    if tou_config.tiers.isEmpty then some (pyF 0, pyF 0, pyF 0, pyF 0)
    else
      match pySelectTier total_kwh tou_config.tiers with
      | none => some (pyF 0, pyF 0, pyF 0, pyF 0)
      | some selected =>
        let pr := selected.peak_rate.getD (pyI 0)
        let opr := selected.offpeak_rate.getD (pyI 0)
        do
          let a ← pdiv pr (pyI 100)
          let b ← pmul peak_kwh a
          let c ← pdiv opr (pyI 100)
          let d ← pmul offpeak_kwh c
          let energy_cost ← padd b d
          some (energy_cost, pr, opr, pyF 0)
  | .standard =>
    if tariff.tiers.isEmpty then some (pyF 0, pyF 0, pyF 0, pyF 0)
    else
      match pySelectTier total_kwh tariff.tiers with
      | none => some (pyF 0, pyF 0, pyF 0, pyF 0)
      | some selected =>
        let r := selected.rate.getD (pyI 0)
        do
          let a ← pdiv r (pyI 100)
          let energy_cost ← pmul total_kwh a
          some (energy_cost, pyF 0, pyF 0, r)

/-- `calculate_retail_charge` over tagged numbers (comparison only, never
raises). -/
def pyCalculateRetailCharge (total_kwh : PyNum) (c : PyCharges) : PyNum :=
  let waiver_limit := c.retail_waiver_limit.getD (pyI 600)
  let retail_charge := c.retail.getD (pyF 10)
  if total_kwh.val > waiver_limit.val then retail_charge else pyF 0

/-- `calculate_afa_charge` over tagged numbers. -/
def pyCalculateAfaCharge (total_kwh : PyNum) (afa : PyAfa)
    (current_month_key : String) : Option PyNum :=
  let waiver_limit := afa.waiver_limit.getD (pyI 600)
  if total_kwh.val ≤ waiver_limit.val then some (pyF 0)
  else
    let afa_rate :=
      match afa.rates.lookup current_month_key with
      | some r => r
      | none => afa.rate.getD (pyF 0)
    do
      let a ← pdiv afa_rate (pyI 100)
      pmul total_kwh a

/-- `calculate_eei_rebate` over tagged numbers. -/
def pyCalculateEeiRebate (total_kwh : PyNum) (eei : PyEeiConfig) :
    Option PyNum :=
  let lim := eei.limit.getD (pyI 1000)
  if total_kwh.val > lim.val then some (pyF 0)
  else
    let fb := do
      let a ← pdiv (eei.rate.getD (pyI 0)) (pyI 100)
      pmul total_kwh a
    if eei.tiers.isEmpty then fb
    else
      match pySelectTier total_kwh eei.tiers with
      | some selected => do
          let a ← pdiv (selected.rate.getD (pyI 0)) (pyI 100)
          pmul total_kwh a
      | none => fb

/-- `calculate_kwtbb_tax` over tagged numbers. -/
def pyCalculateKwtbbTax (total_kwh base_bill : PyNum) (cfg : PyKwtbb) :
    Option PyNum :=
  let threshold := cfg.threshold.getD (pyI 300)
  let r := cfg.rate.getD (pyF (16/10))
  if total_kwh.val > threshold.val then do
    let a ← pdiv r (pyI 100)
    pmul base_bill a
  else some (pyF 0)

/-- `calculate_service_tax` over tagged numbers. -/
def pyCalculateServiceTax (total_kwh base_bill : PyNum)
    (cfg : PyServiceTax) : Option PyNum :=
  let exemption_limit := cfg.exemption_limit.getD (pyI 600)
  let r := cfg.rate.getD (pyF 8)
  if total_kwh.val ≤ exemption_limit.val ∨ total_kwh.val = 0 then some (pyF 0)
  else do
    let excess ← psub total_kwh exemption_limit
    let share ← pdiv excess total_kwh
    let taxable_amount ← pmul base_bill share
    let a ← pdiv r (pyI 100)
    pmul taxable_amount a

/-- `calculate_export_credit` over tagged numbers; the `eei_rate` slot is a
`PyArg` because `calculate_components` passes the `eei` dict there, and
`peak_rate + variable_rate + eei_rate` then raises `TypeError` (already at
`float + Decimal` when the rates mix, and in any case at `+ dict`). -/
def pyCalculateExportCredit (peak_kwh offpeak_kwh total_kwh export_kwh
    peak_rate offpeak_rate variable_rate : PyNum) (tariff_type : TariffType)
    (rate : PyNum) (eei_rate : PyArg) :
    Option (PyNum × PyNum × PyNum × PyNum) :=
  match tariff_type with
  | .tou => do
    let (matched_peak, rem1) ←
      if peak_kwh.val > 0 then do
        let m := pmin export_kwh peak_kwh
        let r ← psub export_kwh m
        some (m, r)
      else some (pyF 0, export_kwh)
    let (matched_offpeak, rem2) ←
      if offpeak_kwh.val > 0 then do
        let m := pmin rem1 offpeak_kwh
        let r ← psub rem1 m
        some (m, r)
      else some (pyF 0, rem1)
    let s1 ← padd peak_rate variable_rate
    let s2 ← paddArg s1 eei_rate
    let d1 ← pdiv s2 (pyI 100)
    let t1 ← pmul matched_peak d1
    let s3 ← padd offpeak_rate variable_rate
    let s4 ← paddArg s3 eei_rate
    let d2 ← pdiv s4 (pyI 100)
    let t2 ← pmul matched_offpeak d2
    let credit_value ← padd t1 t2
    some (credit_value, matched_peak, matched_offpeak, rem2)
  | .standard => do
    let (matched_total, rem) ←
      if total_kwh.val > 0 then do
        let m := pmin export_kwh total_kwh
        let r ← psub export_kwh m
        some (m, r)
      else some (pyF 0, export_kwh)
    let s1 ← padd rate variable_rate
    let s2 ← paddArg s1 eei_rate
    let d ← pdiv s2 (pyI 100)
    let credit_value ← pmul matched_total d
    some (credit_value, matched_total, pyF 0, rem)

/-- The energy counters of `TNBEnergyTracker` as `calculate_components`
reads them: `Decimal`-tagged values. -/
structure PyTrackerState where
  tariff_type : TariffType
  peak_kwh : PyNum
  offpeak_kwh : PyNum
  total_kwh : PyNum
  export_kwh : PyNum
  nem_balance : PyNum
deriving Repr, DecidableEq

/-- The 12-key dict `calculate_components` returns on its full path. -/
structure PyComponents where
  import_cost : PyNum
  energy_cost : PyNum
  capacity_charge : PyNum
  network_charge : PyNum
  retail_charge : PyNum
  afa_cost : PyNum
  eei_rebate : PyNum
  kwtbb_tax : PyNum
  service_tax : PyNum
  export_credit : PyNum
  excess_export_kwh : PyNum
  net_bill : PyNum
deriving Repr, DecidableEq

/-- The 4-key all-zero dict of the two early returns. -/
structure PyComponentsLite where
  import_cost : PyNum
  export_credit : PyNum
  excess_export_kwh : PyNum
  net_bill : PyNum
deriving Repr, DecidableEq

/-- What a `calculate_components` call yields when it returns. -/
inductive PyCompResult where
  | lite (c : PyComponentsLite)
  | full (c : PyComponents)
deriving Repr, DecidableEq

/-- The all-zero 4-key early return value. -/
def pyZeroComponents : PyCompResult := .lite ⟨pyF 0, pyF 0, pyF 0, pyF 0⟩

/-- Steps 1–5 of `calculate_components`' import-cost section, as far as the
base bill (energy charge, per-component variable charges, retail, AFA, EEI):
yields `(energy_cost, peak_rate, offpeak_rate, rate, variable_rate,
capacity_charge, network_charge, retail_charge, afa_cost, eei_rebate,
base_bill_amount)`. -/
def pyImportBase (s : PyTrackerState) (tariff : PyTariff) (d : PySnapshot)
    (month : String) (total_import : PyNum) :
    Option (PyNum × PyNum × PyNum × PyNum × PyNum × PyNum × PyNum × PyNum ×
      PyNum × PyNum × PyNum) := do
  let charges := tariff.charges.getD {}
  let afa := d.afa.getD {}
  let eei := d.eei.getD {}
  let (energy_cost, peak_rate, offpeak_rate, rate) ←
    pyCalculateEnergyCost s.peak_kwh s.offpeak_kwh total_import tariff
      s.tariff_type
  let capacity_rate := pyToDec (charges.capacity.getD (pyI 0))
  let network_rate := pyToDec (charges.network.getD (pyI 0))
  let variable_rate ← padd capacity_rate network_rate
  let c1 ← pdiv capacity_rate (pyI 100)
  let capacity_charge ← pmul total_import c1
  let n1 ← pdiv network_rate (pyI 100)
  let network_charge ← pmul total_import n1
  let total_variable_cost ← padd capacity_charge network_charge
  let retail_charge := pyCalculateRetailCharge total_import charges
  let afa_cost ← pyCalculateAfaCharge total_import afa month
  let eei_rebate ← pyCalculateEeiRebate total_import eei
  let b1 ← padd energy_cost total_variable_cost
  let b2 ← padd b1 retail_charge
  let b3 ← padd b2 afa_cost
  let base_bill_amount ← padd b3 eei_rebate
  some (energy_cost, peak_rate, offpeak_rate, rate, variable_rate,
    capacity_charge, network_charge, retail_charge, afa_cost, eei_rebate,
    base_bill_amount)

/-- The two tax steps of `calculate_components`: the KWTBB base is
`energy + variable + eei` (retail and AFA excluded), service tax applies to
the full base bill; yields `(kwtbb_cost, service_tax_cost,
total_import_cost)`. -/
def pyImportTaxes (d : PySnapshot) (total_import energy_cost capacity_charge
    network_charge eei_rebate base_bill_amount : PyNum) :
    Option (PyNum × PyNum × PyNum) := do
  let tax_config := d.tax.getD {}
  let total_variable_cost ← padd capacity_charge network_charge
  let k1 ← padd energy_cost total_variable_cost
  let kwtbb_base ← padd k1 eei_rebate
  let kwtbb_cost ←
    pyCalculateKwtbbTax total_import kwtbb_base (tax_config.kwtbb.getD {})
  let service_tax_cost ←
    pyCalculateServiceTax total_import base_bill_amount
      (tax_config.service_tax.getD {})
  let t1 ← padd base_bill_amount kwtbb_cost
  let total_import_cost ← padd t1 service_tax_cost
  some (kwtbb_cost, service_tax_cost, total_import_cost)

/-- The export-credit and net-bill tail of `calculate_components`: combine
the NEM balance into the effective export and call `calculate_export_credit`
— with the raw `eei` dict in the `eei_rate` argument slot, exactly as the
source does. -/
def pyExportTail (s : PyTrackerState) (d : PySnapshot)
    (peak_rate offpeak_rate rate variable_rate total_import_cost : PyNum) :
    Option (PyNum × PyNum × PyNum) := do
  let eei := d.eei.getD {}
  let effective_export ← padd s.export_kwh s.nem_balance
  let (credit_value, _mp, _mo, excess_export) ←
    pyCalculateExportCredit s.peak_kwh s.offpeak_kwh s.total_kwh
      effective_export peak_rate offpeak_rate variable_rate s.tariff_type
      rate (.eeiDict eei)
  let nb ← psub total_import_cost credit_value
  let net_bill := pmax nb (pyD 0)
  some (credit_value, excess_export, net_bill)

/-- `TNBEnergyTracker.calculate_components(coordinator_data)` over tagged
numbers, statement by statement (split into the three helper phases above,
which thread through `Option` in the source's evaluation order); `month` is
`dt_util.now().strftime("%Y-%m")` and `none` models an uncaught exception
escaping the call. -/
def pyCalculateComponents (s : PyTrackerState) (data : Option PySnapshot)
    (month : String) : Option PyCompResult :=
  match data with
  | none => some pyZeroComponents
  | some d =>
    match d.tariff_a with
    | none => some pyZeroComponents
    | some tariff => do
      let total_import ←
        if s.tariff_type = .tou then padd s.peak_kwh s.offpeak_kwh
        else some s.total_kwh
      let (energy_cost, peak_rate, offpeak_rate, rate, variable_rate,
        capacity_charge, network_charge, retail_charge, afa_cost, eei_rebate,
        base_bill_amount) ← pyImportBase s tariff d month total_import
      let (kwtbb_cost, service_tax_cost, total_import_cost) ←
        pyImportTaxes d total_import energy_cost capacity_charge
          network_charge eei_rebate base_bill_amount
      let (credit_value, excess_export, net_bill) ←
        pyExportTail s d peak_rate offpeak_rate rate variable_rate
          total_import_cost
      some (.full ⟨total_import_cost, energy_cost, capacity_charge,
        network_charge, retail_charge, afa_cost, eei_rebate, kwtbb_cost,
        service_tax_cost, credit_value, excess_export, net_bill⟩)

/-! ## The January-2025 worked example

The spec's end-to-end billing example (§8) is the repository's own
`test_bill_january_2025`: ToU mode, peak 160 kWh, offpeak 798 kWh, export
504 kWh, tier rates 28.52/24.43 sen, capacity 4.55 + network 12.85 sen,
retail RM10 (waiver 600), AFA −6.5 sen for 2025-01 (waiver 600), EEI
−0.5 sen (cap 1000), service tax 8 % (exemption 600), KWTBB 1.6 %
(threshold 300).  Below, the exact-rational configuration for the pure
pipeline (the composition the test itself performs) and the tagged
configuration for the `calculate_components` call. -/

/-- The example's ToU tier table (four tiers, identical rates). -/
def jan25Tou : TouConfig :=
  { tiers :=
      [⟨200, some 28.52, some 24.43, none⟩,
       ⟨900, some 28.52, some 24.43, none⟩,
       ⟨1500, some 28.52, some 24.43, none⟩,
       ⟨999999, some 28.52, some 24.43, none⟩] }

/-- The example's tariff section. -/
def jan25Tariff : Tariff :=
  { tou := some jan25Tou,
    charges := some { capacity := some 4.55, network := some 12.85,
                      retail := some 10, retail_waiver_limit := some 600 } }

/-- The example's AFA section: −6.5 sen/kWh for month 2025-01. -/
def jan25Afa : AfaConfig :=
  { waiver_limit := some 600, rates := [("2025-01", -6.5)], rate := some 0 }

/-- The example's EEI section. -/
def jan25Eei : EeiConfig := { limit := some 1000, rate := some (-0.5) }

/-- The example's KWTBB section. -/
def jan25Kwtbb : KwtbbConfig := { threshold := some 300, rate := some 1.6 }

/-- The example's service-tax section. -/
def jan25Stx : ServiceTaxConfig := { exemption_limit := some 600, rate := some 8 }

/-- Energy charge and tier rates of the example
(`calculate_energy_cost(160, 798, 958, tariff, ToU)`). -/
def jan25Energy : ℚ × ℚ × ℚ × ℚ :=
  calculate_energy_cost 160 798 958 jan25Tariff .tou

/-- The example's variable charges. -/
def jan25Variable : ℚ := calculate_variable_charges 958 4.55 12.85

/-- The example's AFA charge. -/
def jan25AfaCost : ℚ := calculate_afa_charge 958 jan25Afa "2025-01"

/-- The example's retail charge. -/
def jan25Retail : ℚ :=
  calculate_retail_charge 958 { retail := some 10, retail_waiver_limit := some 600 }

/-- The example's EEI (import) rebate. -/
def jan25EeiRebate : ℚ := calculate_eei_rebate 958 jan25Eei

/-- The example's base bill (energy + variable + AFA + retail + EEI). -/
def jan25BaseBill : ℚ :=
  jan25Energy.1 + jan25Variable + jan25AfaCost + jan25Retail + jan25EeiRebate

/-- The example's KWTBB tax (base: energy + variable + EEI). -/
def jan25KwtbbTax : ℚ :=
  calculate_kwtbb_tax 958 (jan25Energy.1 + jan25Variable + jan25EeiRebate)
    jan25Kwtbb

/-- The example's service tax (pro-rata on the base bill). -/
def jan25ServiceTax : ℚ := calculate_service_tax 958 jan25BaseBill jan25Stx

/-- The example's total import cost before NEM credits. -/
def jan25TotalImport : ℚ := jan25BaseBill + jan25ServiceTax + jan25KwtbbTax

/-- The EEI rebate computed on the export quantity (the "Pelarasan
Insentif" clawback amount, negated). -/
def jan25EeiExportRebate : ℚ := calculate_eei_rebate 504 jan25Eei

/-- The per-kWh EEI export rate the repository's own bill-verification test
derives: the export-side EEI rebate, as sen/kWh, divided by the export
quantity. -/
def jan25EeiExportRate : ℚ := jan25EeiExportRebate * 100 / 504

/-- The example's export credit tuple
`(credit, matched_peak, matched_offpeak, excess)` with the derived EEI
export rate. -/
def jan25Credit : ℚ × ℚ × ℚ × ℚ :=
  calculate_export_credit 160 798 958 504 jan25Energy.2.1 jan25Energy.2.2.1
    (4.55 + 12.85) .tou 0 jan25EeiExportRate

/-- The example's gross export credit (no EEI clawback). -/
def jan25GrossCredit : ℚ :=
  (calculate_export_credit 160 798 958 504 jan25Energy.2.1 jan25Energy.2.2.1
    (4.55 + 12.85) .tou 0 0).1

/-- The example's final net bill. -/
def jan25NetBill : ℚ := jan25TotalImport - jan25Credit.1

/-- The example's tagged rate-table snapshot: JSON floats carry the `float`
tag, JSON integers the `int` tag. -/
def pyJan25Snapshot : PySnapshot :=
  { tariff_a := some
      { tou := some
          { tiers :=
              [⟨pyI 200, some (pyF 28.52), some (pyF 24.43), none⟩,
               ⟨pyI 900, some (pyF 28.52), some (pyF 24.43), none⟩,
               ⟨pyI 1500, some (pyF 28.52), some (pyF 24.43), none⟩,
               ⟨pyI 999999, some (pyF 28.52), some (pyF 24.43), none⟩] },
        charges := some { capacity := some (pyF 4.55),
                          network := some (pyF 12.85),
                          retail := some (pyF 10),
                          retail_waiver_limit := some (pyI 600) } },
    afa := some { waiver_limit := some (pyI 600),
                  rates := [("2025-01", pyF (-6.5))], rate := some (pyF 0) },
    eei := some { limit := some (pyI 1000), rate := some (pyF (-0.5)) },
    tax := some { kwtbb := some ⟨some (pyI 300), some (pyF 1.6)⟩,
                  service_tax := some ⟨some (pyI 600), some (pyF 8)⟩ } }

/-- The example's tracker counters as `calculate_components` reads them:
`Decimal`-tagged, ToU mode, NEM balance zero. -/
def pyJan25State : PyTrackerState :=
  ⟨.tou, pyD 160, pyD 798, pyD 958, pyD 504, pyD 0⟩

/-- Claim C1 (counterexample): on the worked example `calculate_components`
does not return the claimed values — it raises `TypeError` (the `Decimal`
energy counters are multiplied by the `float` tier rates, and the `eei`
config dict is passed as the numeric `eei_rate`), and even the intended pure
pipeline puts the service tax strictly below RM 10.47, not ≈ RM 10.78. -/
theorem jan25_example_counterexample :
    pyCalculateComponents pyJan25State (some pyJan25Snapshot) "2025-01" = none
    ∧ 10.46 < jan25ServiceTax ∧ jan25ServiceTax < 10.47 := by
  exact ⟨by decide, by decide, by decide⟩

/-- Claim C1 (amended): on the worked example `calculate_components` itself
raises `TypeError`; the repository's pure calculation pipeline — composed
exactly as its own bill-verification test composes it, in exact arithmetic —
yields energy RM 240.5834, variable charges RM 166.692, AFA −RM 62.27,
EEI −RM 4.79, base bill RM 350.2154, KWTBB RM 6.4398, service tax
≈ RM 10.47 (not 10.78), total import ≈ RM 367.13 (not 367.43), gross export
credit RM 217.3672, EEI clawback RM 2.52, net credit RM 214.8472 with
matched peak/offpeak/excess = 160/344/0, and net bill ≈ RM 152.28
(not 152.59). -/
theorem jan25_example :
    pyCalculateComponents pyJan25State (some pyJan25Snapshot) "2025-01" = none
    ∧ jan25Energy.1 = 240.5834
    ∧ jan25Energy.2.1 = 28.52 ∧ jan25Energy.2.2.1 = 24.43
    ∧ jan25Variable = 166.692
    ∧ jan25AfaCost = -62.27
    ∧ jan25Retail = 10
    ∧ jan25EeiRebate = -4.79
    ∧ jan25BaseBill = 350.2154
    ∧ jan25KwtbbTax = 6.4397664
    ∧ (10.46 < jan25ServiceTax ∧ jan25ServiceTax < 10.47)
    ∧ (367.12 < jan25TotalImport ∧ jan25TotalImport < 367.13)
    ∧ jan25EeiExportRebate = -2.52
    ∧ jan25EeiExportRate = -0.5
    ∧ jan25Credit.2.1 = 160 ∧ jan25Credit.2.2.1 = 344 ∧ jan25Credit.2.2.2 = 0
    ∧ jan25Credit.1 = 214.8472
    ∧ jan25GrossCredit = 217.3672
    ∧ jan25GrossCredit - jan25Credit.1 = 2.52
    ∧ (152.27 < jan25NetBill ∧ jan25NetBill < 152.28) := by
  refine ⟨by decide, ?_⟩
  decide

/-- Claim C7: `calculate_components` does not derive a per-kWh EEI export
rate at all — it passes the raw `eei` configuration dict in the numeric
`eei_rate` argument slot of `calculate_export_credit`, whose credit
expression then raises `TypeError` (first conjunct, with the exact tagged
arguments the coordinator builds on the worked example).  The derivation the
claim describes — EEI rebate of the export quantity divided by that
quantity — is what the repository's own bill-verification test performs; it
gives −0.5 sen/kWh here, and the claim's credit formula with that rate
matches `calculate_export_credit`'s value (remaining conjuncts). -/
theorem export_credit_eei_dict_bug :
    pyCalculateExportCredit (pyD 160) (pyD 798) (pyD 958) (pyD 504)
      (pyF 28.52) (pyF 24.43) (pyD 17.4) .tou (pyF 0)
      (.eeiDict { limit := some (pyI 1000), rate := some (pyF (-0.5)) }) = none
    ∧ jan25EeiExportRate = -0.5
    ∧ (calculate_export_credit 160 798 958 504 28.52 24.43 17.4 .tou 0
        jan25EeiExportRate).1
        = 160 * ((28.52 + 17.4 + jan25EeiExportRate) / 100)
          + 344 * ((24.43 + 17.4 + jan25EeiExportRate) / 100) := by
  exact ⟨by decide, by decide, by decide⟩

/-- The minimal Standard-mode tracker state for the robustness claim: all
counters are `Decimal` zeros, as a freshly started tracker holds them. -/
def pyZeroState : PyTrackerState := ⟨.standard, pyD 0, pyD 0, pyD 0, pyD 0, pyD 0⟩

/-- A rate-table snapshot whose tariff section holds one standard tier. -/
def pyOneTierSnapshot : PySnapshot :=
  { tariff_a := some { tiers := [⟨pyI 200, none, none, some (pyF 21.8)⟩] } }

/-- Claim C9: the two early-return branches do return the all-zero component
set (absent snapshot; snapshot without a tariff section) — but
`calculate_components` does not return a value on every snapshot: with any
populated tariff section the `Decimal` counters meet `float` rates and the
call raises `TypeError` (first conjunct: a one-tier standard snapshot with a
freshly zeroed tracker already crashes). -/
theorem calculate_components_robustness_bug :
    pyCalculateComponents pyZeroState (some pyOneTierSnapshot) "2025-01" = none
    ∧ pyCalculateComponents pyZeroState none "2025-01" = some pyZeroComponents
    ∧ pyCalculateComponents pyZeroState (some {}) "2025-01"
        = some pyZeroComponents := by
  exact ⟨by decide, by decide, by decide⟩

/-! ## Claim C4: tier selection -/

/-- The loop of `select_tier` is exactly `List.find?` with the bound
predicate. -/
theorem scanTiers_eq_find (u : ℚ) (l : List Tier) :
    scanTiers u l = l.find? (fun t => decide (u ≤ t.limit)) := by
  induction l with
  | nil => rfl
  | cons a l ih =>
    by_cases h : u ≤ a.limit
    · simp [scanTiers, h, List.find?_cons_of_pos]
    · simp [scanTiers, h, List.find?_cons_of_neg, ih]

/-- Claim C4: for a tier list sorted by ascending limit, `select_tier`
returns the first tier whose limit is at least the usage, the last tier when
the usage exceeds every limit, and nothing for the empty list. -/
theorem select_tier_first_bound (u : ℚ) (tiers : List Tier)
    (hsorted : List.Pairwise (fun a b => a.limit ≤ b.limit) tiers) :
    select_tier u tiers
        = (tiers.find? (fun t => decide (u ≤ t.limit))).or tiers.getLast?
    ∧ (tiers = [] → select_tier u tiers = none)
    ∧ ((∀ t ∈ tiers, t.limit < u) → select_tier u tiers = tiers.getLast?) := by
  have hmain : select_tier u tiers
      = (tiers.find? (fun t => decide (u ≤ t.limit))).or tiers.getLast? := by
    unfold select_tier
    rcases tiers with _ | ⟨a, l⟩
    · rfl
    · rw [scanTiers_eq_find]
      cases h : (a :: l).find? (fun t => decide (u ≤ t.limit)) <;>
        simp [h, Option.or]
  refine ⟨hmain, ?_, ?_⟩
  · rintro rfl; rfl
  · intro hall
    rw [hmain, List.find?_eq_none.2 (fun t ht => ?_), Option.none_or]
    simpa using not_le.2 (hall t ht)

/-- The tier table of the repository's own tier-selection tests. -/
def c4Tiers : List Tier :=
  [⟨200, none, none, some 21.8⟩, ⟨1500, none, none, some 33.4⟩,
   ⟨999999, none, none, some 51.6⟩]

/-- Witness for C4 at the test's tier table and usage 500. -/
theorem select_tier_first_bound_witness :
    List.Pairwise (fun a b : Tier => a.limit ≤ b.limit) c4Tiers
    ∧ (select_tier 500 c4Tiers
        = (c4Tiers.find? (fun t => decide ((500 : ℚ) ≤ t.limit))).or
            c4Tiers.getLast?
      ∧ (c4Tiers = [] → select_tier 500 c4Tiers = none)
      ∧ ((∀ t ∈ c4Tiers, t.limit < 500) →
          select_tier 500 c4Tiers = c4Tiers.getLast?)) :=
  ⟨by decide, select_tier_first_bound 500 c4Tiers (by decide)⟩

/-! ## Claim C10: export-credit conservation -/

/-- One offset step `min(remaining, bucket)` of the peak-first algorithm,
guarded by `bucket > 0` as in the source. -/
theorem offsetStep (e q : ℚ) (he : 0 ≤ e) (hq : 0 ≤ q) :
    0 ≤ (if q > 0 then min e q else 0)
    ∧ (if q > 0 then min e q else 0) ≤ q
    ∧ (if q > 0 then min e q else 0) ≤ e := by
  by_cases h : q > 0
  · simp only [if_pos h]
    exact ⟨le_min he (le_of_lt h), min_le_right _ _, min_le_left _ _⟩
  · simp only [if_neg h]
    exact ⟨le_refl 0, hq, he⟩

/-- The conservation facts claim C10 states, at given inputs. -/
def ExportConservation (p o tot e pr opr vr r er : ℚ) : Prop :=
  ((calculate_export_credit p o tot e pr opr vr .tou r er).2.1
      + (calculate_export_credit p o tot e pr opr vr .tou r er).2.2.1
      + (calculate_export_credit p o tot e pr opr vr .tou r er).2.2.2 = e
    ∧ (calculate_export_credit p o tot e pr opr vr .tou r er).2.1 ≤ p
    ∧ (calculate_export_credit p o tot e pr opr vr .tou r er).2.2.1 ≤ o
    ∧ 0 ≤ (calculate_export_credit p o tot e pr opr vr .tou r er).1
    ∧ 0 ≤ (calculate_export_credit p o tot e pr opr vr .tou r er).2.1
    ∧ 0 ≤ (calculate_export_credit p o tot e pr opr vr .tou r er).2.2.1
    ∧ 0 ≤ (calculate_export_credit p o tot e pr opr vr .tou r er).2.2.2)
  ∧ ((calculate_export_credit p o tot e pr opr vr .standard r er).2.1
      + (calculate_export_credit p o tot e pr opr vr .standard r er).2.2.2 = e
    ∧ (calculate_export_credit p o tot e pr opr vr .standard r er).2.1 ≤ tot
    ∧ (calculate_export_credit p o tot e pr opr vr .standard r er).2.2.1 = 0
    ∧ 0 ≤ (calculate_export_credit p o tot e pr opr vr .standard r er).1
    ∧ 0 ≤ (calculate_export_credit p o tot e pr opr vr .standard r er).2.1
    ∧ 0 ≤ (calculate_export_credit p o tot e pr opr vr .standard r er).2.2.2)

/-- Claim C10: `calculate_export_credit` conserves export energy — matched
quantities plus excess equal the export, each matched quantity is bounded by
its import bucket, and (for non-negative inputs) all returned quantities are
non-negative, in both tariff modes. -/
theorem export_credit_conservation (p o tot e pr opr vr r er : ℚ)
    (hp : 0 ≤ p) (ho : 0 ≤ o) (htot : 0 ≤ tot) (he : 0 ≤ e) (hpr : 0 ≤ pr)
    (hopr : 0 ≤ opr) (hvr : 0 ≤ vr) (hr : 0 ≤ r) (her : 0 ≤ er) :
    ExportConservation p o tot e pr opr vr r er := by
  obtain ⟨hmp0, hmpp, hmpe⟩ := offsetStep e p he hp
  constructor
  · simp only [ExportConservation, calculate_export_credit]
    have hrem1 : 0 ≤ e - (if p > 0 then min e p else 0) := sub_nonneg.2 hmpe
    obtain ⟨hmo0, hmoo, hmoe⟩ :=
      offsetStep (e - (if p > 0 then min e p else 0)) o hrem1 ho
    refine ⟨by ring, hmpp, hmoo, ?_, hmp0, hmo0, sub_nonneg.2 hmoe⟩
    have h1 : (0 : ℚ) ≤ (pr + vr + er) / 100 := by positivity
    have h2 : (0 : ℚ) ≤ (opr + vr + er) / 100 := by positivity
    exact add_nonneg (mul_nonneg hmp0 h1) (mul_nonneg hmo0 h2)
  · simp only [ExportConservation, calculate_export_credit]
    obtain ⟨hmt0, hmtt, hmte⟩ := offsetStep e tot he htot
    refine ⟨by ring, hmtt, by trivial, ?_, hmt0, sub_nonneg.2 hmte⟩
    have h1 : (0 : ℚ) ≤ (r + vr + er) / 100 := by positivity
    exact mul_nonneg hmt0 h1

/-- Witness for C10 at the spec's export-offset example
(peak 100, offpeak 200, export 150). -/
theorem export_credit_conservation_witness :
    ExportConservation 100 200 300 150 50 30 15 0 0 :=
  export_credit_conservation 100 200 300 150 50 30 15 0 0 (by norm_num)
    (by norm_num) (by norm_num) (by norm_num) (by norm_num) (by norm_num)
    (by norm_num) (by norm_num) (by norm_num)

/-! ## Claim C6: peak/off-peak classification -/

/-- Modelled from the spec's words (§4.1 Classification): off-peak if the
time falls on a weekend and `weekend_is_offpeak` is set, else off-peak if
its calendar date is a listed public holiday, else peak exactly when the
time-of-day lies in the half-open window `[peak_start, peak_end)`; any parse
failure of the schedule yields off-peak. -/
def specIsPeakTime (t : PDateTime) (cfg : TouConfig) : Bool :=
  match parseHHMM (cfg.peak_start.getD "14:00"),
        parseHHMM (cfg.peak_end.getD "22:00") with
  | some ps, some pe =>
    !(cfg.weekend_is_offpeak.getD true && decide (t.weekday ≥ 5))
      && !(decide (t.dateKey ∈ cfg.public_holidays.getD []))
      && (decide (ps.toN ≤ t.timeOfDay.toN) && decide (t.timeOfDay.toN < pe.toN))
  | _, _ => false

/-- Claim C6: `is_peak_time` equals the spec's classification for every
datetime and schedule configuration; concretely (default 14:00–22:00
schedule): Monday 2025-01-06 at exactly 14:00 is peak, one microsecond
before 22:00 is peak, exactly 22:00 is off-peak, just before 14:00 is
off-peak; Saturday 16:00 is off-peak; the listed holiday 2025-01-01
(a Wednesday) at 16:00 is off-peak; an unparseable `peak_start` forces
off-peak even at 16:00 on a Monday. -/
theorem is_peak_time_matches_spec :
    (∀ (t : PDateTime) (cfg : TouConfig),
        is_peak_time t cfg = specIsPeakTime t cfg)
    ∧ is_peak_time ⟨2025, 1, 6, 14, 0, 0, 0⟩ {} = true
    ∧ is_peak_time ⟨2025, 1, 6, 21, 59, 59, 999999⟩ {} = true
    ∧ is_peak_time ⟨2025, 1, 6, 22, 0, 0, 0⟩ {} = false
    ∧ is_peak_time ⟨2025, 1, 6, 13, 59, 59, 999999⟩ {} = false
    ∧ is_peak_time ⟨2025, 1, 4, 16, 0, 0, 0⟩ {} = false
    ∧ is_peak_time ⟨2025, 1, 1, 16, 0, 0, 0⟩
        { public_holidays := some ["2025-01-01"] } = false
    ∧ is_peak_time ⟨2025, 1, 6, 16, 0, 0, 0⟩
        { peak_start := some "25:99" } = false := by
  refine ⟨?_, by decide, by decide, by decide, by decide, by decide,
    by decide, by decide⟩
  intro t cfg
  unfold is_peak_time specIsPeakTime
  cases parseHHMM (cfg.peak_start.getD "14:00") <;>
    cases parseHHMM (cfg.peak_end.getD "22:00") <;> simp [Bool.and_assoc]

/-! ## Claim C2: billing-cycle rollover and NEM conservation -/

/-- What claim C2 states about a fired rollover at `now` with restored
`last_reset = lr`: the NEM balance is forfeited exactly on a
January-1st-crossing rollover and otherwise grows by
`max 0 (export - import)`, the four period counters reset, and `last_reset`
becomes `now`. -/
def RolloverOutcome (s : TrackerState) (now lr : PDateTime) : Prop :=
  ((PDateTime.ltb lr (yearResetDate now)
      && PDateTime.leb (yearResetDate now) now) = true →
    (checkReset s now).nem_balance = 0)
  ∧ ((PDateTime.ltb lr (yearResetDate now)
      && PDateTime.leb (yearResetDate now) now) = false →
    (checkReset s now).nem_balance
      = s.nem_balance + max 0 (s.export_kwh - currentImport s))
  ∧ (checkReset s now).peak_kwh = 0
  ∧ (checkReset s now).offpeak_kwh = 0
  ∧ (checkReset s now).total_kwh = 0
  ∧ (checkReset s now).export_kwh = 0
  ∧ (checkReset s now).last_reset = some now

/-- Claim C2: whenever a rollover fires (`last_reset` predates the computed
period start), `_check_reset` conserves the NEM balance as
`nem + max 0 (export - current import)` on a non-January rollover, zeroes it
on a rollover crossing January 1st, resets the four period counters and sets
`last_reset := now`. -/
theorem rollover_conservation (s : TrackerState) (now lr : PDateTime)
    (hlr : s.last_reset = some lr)
    (hdue : PDateTime.ltb lr (periodStart s.billing_day now) = true) :
    RolloverOutcome s now lr := by
  unfold RolloverOutcome
  simp only [checkReset, hlr, hdue, if_true]
  by_cases hy : (PDateTime.ltb lr (yearResetDate now)
      && PDateTime.leb (yearResetDate now) now) = true <;>
    simp [hy]

/-- The tracker state of the repository's NEM-accumulation test: Standard
mode, March import 100 kWh, export 150 kWh, prior NEM balance 30 kWh. -/
def c2State : TrackerState :=
  { billing_day := 1, tariff_type := .standard, total_kwh := 100,
    export_kwh := 150, nem_balance := 30,
    last_reset := some ⟨2025, 3, 5, 0, 0, 0, 0⟩ }

/-- Witness for C2: the April-2nd rollover of `c2State` (no January
crossing): NEM becomes 30 + max 0 (150 − 100) = 80, counters reset. -/
theorem rollover_conservation_witness :
    RolloverOutcome c2State ⟨2025, 4, 2, 12, 0, 0, 0⟩ ⟨2025, 3, 5, 0, 0, 0, 0⟩ :=
  rollover_conservation c2State ⟨2025, 4, 2, 12, 0, 0, 0⟩ ⟨2025, 3, 5, 0, 0, 0, 0⟩
    rfl (by decide)

/-! ## Quiet rollover checks

`_check_reset` mutates nothing but `last_reset` unless a rollover actually
fires; these lemmas capture the two quiet cases and feed the ingestion
claims. -/

/-- A `_check_reset` call inside the current billing period is a no-op. -/
theorem checkReset_quiet_some (s : TrackerState) (now lr : PDateTime)
    (hlr : s.last_reset = some lr)
    (hq : PDateTime.ltb lr (periodStart s.billing_day now) = false) :
    checkReset s now = s := by
  simp [checkReset, hlr, hq]

/-- The first `_check_reset` call only initialises `last_reset`. -/
theorem checkReset_none_init (s : TrackerState) (now : PDateTime)
    (hlr : s.last_reset = none) :
    checkReset s now = { s with last_reset := some now } := by
  simp [checkReset, hlr]

/-- When no rollover is due, `_check_reset` leaves every counter (and the
configuration) unchanged. -/
theorem checkReset_quiet_counters (s : TrackerState) (now : PDateTime)
    (hq : rolloverDue s now = false) :
    (checkReset s now).peak_kwh = s.peak_kwh
    ∧ (checkReset s now).offpeak_kwh = s.offpeak_kwh
    ∧ (checkReset s now).total_kwh = s.total_kwh
    ∧ (checkReset s now).export_kwh = s.export_kwh
    ∧ (checkReset s now).nem_balance = s.nem_balance
    ∧ (checkReset s now).billing_day = s.billing_day
    ∧ (checkReset s now).tariff_type = s.tariff_type := by
  cases hlr : s.last_reset with
  | none =>
    rw [checkReset_none_init s now hlr]
    exact ⟨rfl, rfl, rfl, rfl, rfl, rfl, rfl⟩
  | some lr =>
    have h : PDateTime.ltb lr (periodStart s.billing_day now) = false := by
      simpa [rolloverDue, hlr] using hq
    rw [checkReset_quiet_some s now lr hlr h]
    exact ⟨rfl, rfl, rfl, rfl, rfl, rfl, rfl⟩

/-- The import accumulated so far, in the counter the active tariff mode
uses: `peak + offpeak` for ToU (the mode keeps `total` equal to that sum),
`total` for Standard. -/
def importAccum (s : TrackerState) : ℚ :=
  match s.tariff_type with
  | .tou => s.peak_kwh + s.offpeak_kwh
  | .standard => s.total_kwh

/-- `importAccum` only reads the tariff mode and the three import
counters. -/
theorem importAccum_congr (s s' : TrackerState)
    (ht : s'.tariff_type = s.tariff_type) (hp : s'.peak_kwh = s.peak_kwh)
    (ho : s'.offpeak_kwh = s.offpeak_kwh) (htot : s'.total_kwh = s.total_kwh) :
    importAccum s' = importAccum s := by
  unfold importAccum
  rw [ht, hp, ho, htot]

/-- The classify-and-accumulate step adds exactly the delta to the active
counter of imported energy, whichever bucket the classification picks. -/
theorem accumulateDelta_accum (c : TrackerState) (delta : ℚ) (tou : TouConfig)
    (now : PDateTime) :
    importAccum (accumulateDelta c delta tou now) = importAccum c + delta := by
  unfold accumulateDelta
  cases htc : c.tariff_type with
  | standard => simp [importAccum, htc]
  | tou =>
    by_cases hpk : is_peak_time now tou = true <;>
      simp [importAccum, htc, hpk] <;> ring

/-- The classify-and-accumulate step touches nothing but the three import
counters. -/
theorem accumulateDelta_frame (c : TrackerState) (delta : ℚ) (tou : TouConfig)
    (now : PDateTime) :
    (accumulateDelta c delta tou now).tariff_type = c.tariff_type
    ∧ (accumulateDelta c delta tou now).billing_day = c.billing_day
    ∧ (accumulateDelta c delta tou now).last_reset = c.last_reset
    ∧ (accumulateDelta c delta tou now).export_kwh = c.export_kwh
    ∧ (accumulateDelta c delta tou now).nem_balance = c.nem_balance
    ∧ (accumulateDelta c delta tou now).fully_restored = c.fully_restored
    ∧ (accumulateDelta c delta tou now).restoredFlag = c.restoredFlag
    ∧ (accumulateDelta c delta tou now).last_import_state = c.last_import_state
    ∧ (accumulateDelta c delta tou now).last_export_state = c.last_export_state := by
  unfold accumulateDelta
  cases htc : c.tariff_type with
  | standard => exact ⟨rfl, rfl, rfl, rfl, rfl, rfl, rfl, rfl, rfl⟩
  | tou =>
    by_cases hpk : is_peak_time now tou = true <;> simp [hpk]

/-- A positive import delta processed while no rollover is due adds exactly
itself to the active import counter. -/
theorem processImportDelta_accum (s : TrackerState) (delta : ℚ)
    (tou : TouConfig) (now : PDateTime) (hq : rolloverDue s now = false)
    (hd : 0 < delta) :
    importAccum (processImportDelta s delta tou now) = importAccum s + delta := by
  obtain ⟨hp, ho, htot, hex, hnem, hbd, htt⟩ := checkReset_quiet_counters s now hq
  unfold processImportDelta
  by_cases hr : isRestored s = true <;>
    simp only [hr, Bool.false_eq_true, ite_true, ite_false, if_neg (not_le.2 hd)]
  · rw [accumulateDelta_accum, importAccum_congr s (checkReset s now) htt hp ho htot]
  · rw [accumulateDelta_accum]

/-- `_check_reset` never touches the restoration bookkeeping, the
configuration or the last raw readings. -/
theorem checkReset_frame (s : TrackerState) (now : PDateTime) :
    (checkReset s now).restored_sensors = s.restored_sensors
    ∧ (checkReset s now).expected_sensors = s.expected_sensors
    ∧ (checkReset s now).fully_restored = s.fully_restored
    ∧ (checkReset s now).restoredFlag = s.restoredFlag
    ∧ (checkReset s now).billing_day = s.billing_day
    ∧ (checkReset s now).tariff_type = s.tariff_type
    ∧ (checkReset s now).last_import_state = s.last_import_state
    ∧ (checkReset s now).last_export_state = s.last_export_state := by
  cases hlr : s.last_reset with
  | none =>
    rw [checkReset_none_init s now hlr]
    exact ⟨rfl, rfl, rfl, rfl, rfl, rfl, rfl, rfl⟩
  | some lr =>
    by_cases hdue : PDateTime.ltb lr (periodStart s.billing_day now) = true
    · simp only [checkReset, hlr, hdue, if_true]
      by_cases hy : (PDateTime.ltb lr (yearResetDate now)
          && PDateTime.leb (yearResetDate now) now) = true <;> simp [hy]
    · rw [checkReset_quiet_some s now lr hlr (by simpa using hdue)]
      exact ⟨rfl, rfl, rfl, rfl, rfl, rfl, rfl, rfl⟩

/-- A fired `_check_reset` zeroes the four period counters and stamps
`last_reset` (the NEM balance is treated separately, by claim C2). -/
theorem checkReset_fired_counters (s : TrackerState) (now lr : PDateTime)
    (hlr : s.last_reset = some lr)
    (hdue : PDateTime.ltb lr (periodStart s.billing_day now) = true) :
    (checkReset s now).peak_kwh = 0 ∧ (checkReset s now).offpeak_kwh = 0
    ∧ (checkReset s now).total_kwh = 0 ∧ (checkReset s now).export_kwh = 0
    ∧ (checkReset s now).last_reset = some now := by
  simp only [checkReset, hlr, hdue, if_true]
  by_cases hy : (PDateTime.ltb lr (yearResetDate now)
      && PDateTime.leb (yearResetDate now) now) = true <;> simp [hy]

/-- `reconcile_tou_total` only rewrites `total`. -/
theorem reconcile_frame (s : TrackerState) :
    (reconcileTouTotal s).peak_kwh = s.peak_kwh
    ∧ (reconcileTouTotal s).offpeak_kwh = s.offpeak_kwh
    ∧ (reconcileTouTotal s).export_kwh = s.export_kwh
    ∧ (reconcileTouTotal s).nem_balance = s.nem_balance
    ∧ (reconcileTouTotal s).last_reset = s.last_reset
    ∧ (reconcileTouTotal s).billing_day = s.billing_day
    ∧ (reconcileTouTotal s).tariff_type = s.tariff_type
    ∧ (reconcileTouTotal s).restored_sensors = s.restored_sensors
    ∧ (reconcileTouTotal s).expected_sensors = s.expected_sensors := by
  unfold reconcileTouTotal
  by_cases h : s.tariff_type = .tou <;> simp [h]

/-! ## Claim C3: the restoration-completion protocol -/

/-- The tracker of the counterexample: one expected sensor. -/
def c3State : TrackerState :=
  { billing_day := 1, tariff_type := .standard, expected_sensors := 1 }

/-- A fixed call time for the restoration examples. -/
def c3Time : PDateTime := ⟨2025, 6, 10, 12, 0, 0, 0⟩

/-- Claim C3 (counterexample): with one expected sensor, the first
`register_sensor_restored()` call returns true — and so does the second,
although the claim says every call after the count reaches the expected
total returns false. -/
theorem register_restored_counterexample :
    (registerSensorRestored c3State c3Time).1 = true
    ∧ (registerSensorRestored
        (registerSensorRestored c3State c3Time).2 c3Time).1 = true := by
  exact ⟨by decide, by decide⟩

/-- What each `register_sensor_restored()` call actually does: returns true
exactly when the incremented count has reached the expected total (so on
every call from the completing one onward, not only once); on such calls it
sets the restored flags, forces the ToU total invariant, and honours a
deferred rollover against the restored `last_reset`; on earlier calls it
only increments the count. -/
def RegisterBehavior (s : TrackerState) (now : PDateTime) : Prop :=
  (registerSensorRestored s now).1
      = decide (s.expected_sensors ≤ s.restored_sensors + 1)
  ∧ (registerSensorRestored s now).2.restored_sensors = s.restored_sensors + 1
  ∧ (s.expected_sensors ≤ s.restored_sensors + 1 →
      (registerSensorRestored s now).2.fully_restored = true
      ∧ (registerSensorRestored s now).2.restoredFlag = true
      ∧ (s.tariff_type = .tou →
          (registerSensorRestored s now).2.total_kwh
            = (registerSensorRestored s now).2.peak_kwh
              + (registerSensorRestored s now).2.offpeak_kwh)
      ∧ (∀ lr, s.last_reset = some lr →
          PDateTime.ltb lr (periodStart s.billing_day now) = true →
          (registerSensorRestored s now).2.peak_kwh = 0
          ∧ (registerSensorRestored s now).2.offpeak_kwh = 0
          ∧ (registerSensorRestored s now).2.total_kwh = 0
          ∧ (registerSensorRestored s now).2.export_kwh = 0
          ∧ (registerSensorRestored s now).2.last_reset = some now))
  ∧ (s.restored_sensors + 1 < s.expected_sensors →
      (registerSensorRestored s now).1 = false
      ∧ (registerSensorRestored s now).2
          = { s with restored_sensors := s.restored_sensors + 1 })

/-- Claim C3 (amended): the completion behaviour characterised for every
state and call time. -/
theorem register_restored_amended (s : TrackerState) (now : PDateTime) :
    RegisterBehavior s now := by
  by_cases hc : s.expected_sensors ≤ s.restored_sensors + 1
  · refine ⟨?_, ?_, ?_, ?_⟩
    · simp [registerSensorRestored, hc]
    · rcases hlr : s.last_reset with _ | lr
      · by_cases ht : s.tariff_type = .tou <;>
          simp [registerSensorRestored, reconcileTouTotal, hc, hlr, ht]
      · by_cases hdue : PDateTime.ltb lr (periodStart s.billing_day now) = true <;>
          by_cases ht : s.tariff_type = .tou <;>
          simp [registerSensorRestored, reconcileTouTotal, checkReset, hc, hlr,
            hdue, ht] <;> split_ifs <;> simp
    · intro _
      refine ⟨?_, ?_, ?_, ?_⟩
      · rcases hlr : s.last_reset with _ | lr
        · by_cases ht : s.tariff_type = .tou <;>
            simp [registerSensorRestored, reconcileTouTotal, hc, hlr, ht]
        · by_cases hdue : PDateTime.ltb lr (periodStart s.billing_day now) = true <;>
            by_cases ht : s.tariff_type = .tou <;>
            simp [registerSensorRestored, reconcileTouTotal, checkReset, hc, hlr,
              hdue, ht] <;> split_ifs <;> simp
      · rcases hlr : s.last_reset with _ | lr
        · by_cases ht : s.tariff_type = .tou <;>
            simp [registerSensorRestored, reconcileTouTotal, hc, hlr, ht]
        · by_cases hdue : PDateTime.ltb lr (periodStart s.billing_day now) = true <;>
            by_cases ht : s.tariff_type = .tou <;>
            simp [registerSensorRestored, reconcileTouTotal, checkReset, hc, hlr,
              hdue, ht] <;> split_ifs <;> simp
      · intro ht
        rcases hlr : s.last_reset with _ | lr
        · simp [registerSensorRestored, reconcileTouTotal, hc, hlr, ht]
        · by_cases hdue : PDateTime.ltb lr (periodStart s.billing_day now) = true <;>
            simp [registerSensorRestored, reconcileTouTotal, checkReset, hc, hlr,
              hdue, ht]
      · intro lr hlr hdue
        by_cases ht : s.tariff_type = .tou <;>
          simp [registerSensorRestored, reconcileTouTotal, checkReset, hc, hlr,
            hdue, ht]
    · intro hlt
      have hc2 : ¬ s.expected_sensors ≤ s.restored_sensors + 1 := by omega
      exact absurd hc hc2
  · refine ⟨?_, ?_, ?_, ?_⟩
    · simp [registerSensorRestored, hc]
    · simp [registerSensorRestored, hc]
    · intro h
      exact absurd h hc
    · intro _
      constructor <;> simp [registerSensorRestored, hc]

/-! ## Claim C5: counter-reset and glitch handling -/

/-- The tracker of the glitch counterexample: Standard mode, some
accumulated peak energy, last raw import reading 1000. -/
def c5State : TrackerState :=
  { billing_day := 1, tariff_type := .standard, peak_kwh := 100,
    last_import_state := some 1000 }

/-- Claim C5 (counterexample): a drop from 1000 to 900 (≥ threshold) leaves
the energy counters alone — but `last_import_value` is overwritten with 900,
although the claim says the state including `last_import_value` is left
unchanged. -/
theorem reset_detection_counterexample :
    (handleImportChange c5State (.value 900) (.value 1000) {} c3Time).2.last_import_state
      = some 900
    ∧ c5State.last_import_state = some 1000
    ∧ (handleImportChange c5State (.value 900) (.value 1000) {} c3Time).2.peak_kwh
      = 100 := by
  exact ⟨by decide, by decide, by decide⟩

/-- What claim C5 states about a decreasing reading `new < old`, amended:
below the 10 kWh threshold the delta is `new` itself and (when no rollover
is due) the active import counter grows by `new` — and the export path adds
`new` to the export counter; at or above the threshold the delta is zero and
the counters are untouched, but `last_import_value` (resp.
`last_export_value`) is still overwritten with the new reading. -/
def DropOutcome (s : TrackerState) (nv ov : ℚ) (tou : TouConfig)
    (now : PDateTime) : Prop :=
  (nv < SENSOR_RESET_THRESHOLD → ingestDelta nv ov = nv)
  ∧ (SENSOR_RESET_THRESHOLD ≤ nv →
      ingestDelta nv ov = 0
      ∧ handleImportChange s (.value nv) (.value ov) tou now
          = (true, { s with last_import_state := some nv })
      ∧ handleExportChange s (.value nv) (.value ov) now
          = (true, { s with last_export_state := some nv }))
  ∧ (nv < SENSOR_RESET_THRESHOLD → 0 ≤ nv → rolloverDue s now = false →
      importAccum (handleImportChange s (.value nv) (.value ov) tou now).2
        = importAccum s + nv
      ∧ (handleImportChange s (.value nv) (.value ov) tou now).2.last_import_state
        = some nv
      ∧ (handleExportChange s (.value nv) (.value ov) now).2.export_kwh
        = s.export_kwh + nv)

/-- Claim C5 (amended): the reset/glitch rule for every decreasing pair of
numeric readings, on both ingestion paths. -/
theorem reset_detection_amended (s : TrackerState) (nv ov : ℚ)
    (tou : TouConfig) (now : PDateTime) (hdrop : nv < ov) :
    DropOutcome s nv ov tou now := by
  refine ⟨?_, ?_, ?_⟩
  · intro h10
    simp [ingestDelta, hdrop, h10]
  · intro h10
    have hz : ingestDelta nv ov = 0 := by
      simp [ingestDelta, hdrop, not_lt.2 h10]
    refine ⟨hz, ?_, ?_⟩
    · simp [handleImportChange, hz]
    · simp [handleExportChange, hz]
  · intro h10 h0 hq
    have hδ : ingestDelta nv ov = nv := by simp [ingestDelta, hdrop, h10]
    by_cases hpos : 0 < nv
    · obtain ⟨hp, ho, htot, hex, hnem, hbd, htt⟩ := checkReset_quiet_counters s now hq
      refine ⟨?_, ?_, ?_⟩
      · show importAccum
            (if ingestDelta nv ov > 0
              then processImportDelta s (ingestDelta nv ov) tou now else s)
            = importAccum s + nv
        rw [hδ, if_pos hpos, processImportDelta_accum s nv tou now hq hpos]
      · simp [handleImportChange]
      · by_cases hr : isRestored s = true <;>
          simp [handleExportChange, hδ, hpos, hr, hex]
    · have hz : nv = 0 := le_antisymm (not_lt.1 hpos) h0
      subst hz
      have hδ0 : ingestDelta 0 ov = 0 := hδ
      refine ⟨?_, ?_, ?_⟩
      · show importAccum
            (if ingestDelta 0 ov > 0
              then processImportDelta s (ingestDelta 0 ov) tou now else s)
            = importAccum s + 0
        rw [hδ0, if_neg (by norm_num : ¬ (0 : ℚ) > 0), add_zero]
      · simp [handleImportChange, hδ0]
      · simp [handleExportChange, hδ0]

/-- Witness for C5 at the glitch reading 1000 → 900 on `c5State`. -/
theorem reset_detection_amended_witness : DropOutcome c5State 900 1000 {} c3Time :=
  reset_detection_amended c5State 900 1000 {} c3Time (by norm_num)

/-! ## Claim C8: duplicate-sample ingestion -/

/-- The tracker of the duplicate-ingestion counterexample: a fresh Standard
tracker. -/
def c8State : TrackerState := { billing_day := 1, tariff_type := .standard }

/-- Claim C8 (counterexample): delivering the identical (old = 100,
new = 105) import sample twice accumulates the 5 kWh delta twice — the
second call is not a no-op, because the tracker never consults a timestamp
(none reaches it). -/
theorem duplicate_ingestion_counterexample :
    (handleImportChange c8State (.value 105) (.value 100) {} c3Time).2.total_kwh
      = 5
    ∧ (handleImportChange
        (handleImportChange c8State (.value 105) (.value 100) {} c3Time).2
        (.value 105) (.value 100) {} c3Time).2.total_kwh = 10 := by
  exact ⟨by decide, by decide⟩

/-- One increasing import sample processed inside the current billing period
is exactly a classify-and-accumulate step plus the `last_import_value`
update. -/
theorem handleImport_step_quiet (t : TrackerState) (v ov : ℚ)
    (tou : TouConfig) (now lr : PDateTime) (hlr : t.last_reset = some lr)
    (hq : PDateTime.ltb lr (periodStart t.billing_day now) = false)
    (hv : ov < v) :
    (handleImportChange t (.value v) (.value ov) tou now).2
      = { accumulateDelta t (v - ov) tou now with last_import_state := some v } := by
  have hδ : ingestDelta v ov = v - ov := by
    simp [ingestDelta, not_lt.2 (le_of_lt hv)]
  have hdp : (0 : ℚ) < v - ov := sub_pos.2 hv
  have hcr : checkReset t now = t := checkReset_quiet_some t now lr hlr hq
  have hs1 : processImportDelta t (v - ov) tou now
      = accumulateDelta t (v - ov) tou now := by
    unfold processImportDelta
    rw [hcr, ite_self, if_neg (not_le.2 hdp)]
  show ({ (if ingestDelta v ov > 0
      then processImportDelta t (ingestDelta v ov) tou now else t) with
      last_import_state := some v } : TrackerState) = _
  rw [hδ, if_pos hdp, hs1]

/-- What claim C8 becomes on the code, at given inputs: re-delivering a
sample with `new = old` is a no-op on both paths (delta 0), but feeding the
identical increasing (old, new) pair twice adds the delta twice. -/
def DuplicateOutcome (s : TrackerState) (v ov : ℚ) (tou : TouConfig)
    (now : PDateTime) : Prop :=
  handleImportChange s (.value v) (.value v) tou now
      = (true, { s with last_import_state := some v })
  ∧ handleExportChange s (.value v) (.value v) now
      = (true, { s with last_export_state := some v })
  ∧ (ov < v →
      importAccum (handleImportChange
          (handleImportChange s (.value v) (.value ov) tou now).2
          (.value v) (.value ov) tou now).2
        = importAccum s + (v - ov) + (v - ov))

/-- Claim C8 (amended): ingestion has no duplicate detection — equal-value
redelivery is a no-op only because its delta is zero, while an identical
increasing sample pair delivered twice is double-counted. -/
theorem duplicate_ingestion_amended (s : TrackerState) (v ov : ℚ)
    (tou : TouConfig) (now lr : PDateTime) (hlr : s.last_reset = some lr)
    (hq : PDateTime.ltb lr (periodStart s.billing_day now) = false) :
    DuplicateOutcome s v ov tou now := by
  have hδv : ingestDelta v v = 0 := by simp [ingestDelta]
  refine ⟨by simp [handleImportChange, hδv], by simp [handleExportChange, hδv], ?_⟩
  intro hv
  have hA := handleImport_step_quiet s v ov tou now lr hlr hq hv
  obtain ⟨aft, abd, alr, aex, anem, afu, afl, ali, ale⟩ :=
    accumulateDelta_frame s (v - ov) tou now
  rw [hA]
  have hlr2 : ({ accumulateDelta s (v - ov) tou now with
      last_import_state := some v } : TrackerState).last_reset = some lr := by
    rw [show ({ accumulateDelta s (v - ov) tou now with
        last_import_state := some v } : TrackerState).last_reset
      = (accumulateDelta s (v - ov) tou now).last_reset from rfl, alr, hlr]
  have hbd2 : ({ accumulateDelta s (v - ov) tou now with
      last_import_state := some v } : TrackerState).billing_day = s.billing_day := by
    rw [show ({ accumulateDelta s (v - ov) tou now with
        last_import_state := some v } : TrackerState).billing_day
      = (accumulateDelta s (v - ov) tou now).billing_day from rfl, abd]
  rw [handleImport_step_quiet _ v ov tou now lr hlr2 (hbd2 ▸ hq) hv]
  have e1 : importAccum ({ accumulateDelta ({ accumulateDelta s (v - ov) tou now
      with last_import_state := some v }) (v - ov) tou now with
      last_import_state := some v } : TrackerState)
      = importAccum (accumulateDelta ({ accumulateDelta s (v - ov) tou now with
        last_import_state := some v }) (v - ov) tou now) :=
    importAccum_congr _ _ rfl rfl rfl rfl
  rw [e1, accumulateDelta_accum,
    importAccum_congr (accumulateDelta s (v - ov) tou now)
      ({ accumulateDelta s (v - ov) tou now with last_import_state := some v })
      rfl rfl rfl rfl,
    accumulateDelta_accum]

/-- A Standard tracker inside its billing period (last reset June 1st). -/
def c8QuietState : TrackerState :=
  { billing_day := 1, tariff_type := .standard,
    last_reset := some ⟨2025, 6, 1, 0, 0, 0, 0⟩ }

/-- Witness for C8 on a Standard tracker inside its billing period
(sample 100 → 105 redelivered). -/
theorem duplicate_ingestion_amended_witness :
    DuplicateOutcome c8QuietState 105 100 {} c3Time :=
  duplicate_ingestion_amended c8QuietState 105 100 {} c3Time
    ⟨2025, 6, 1, 0, 0, 0, 0⟩ rfl (by decide)

end TNB
